import Mathlib

/-!
Verification development for the Keysight DC Power Analyser control panel
(`psu.py`, the CLI variant, and `psu_gui.py`, the GUI variant).

The instrument bus is modelled by a `Device` oracle: whether the resource
can be opened, which write commands the bus accepts, and the one-line
response (if any) the device gives to each query.  A pyvisa resource is a
`Resource` record (session handle, timeout, read termination).  Every
operation returns, alongside its result, the list of wire-level bus
operations (`BusOp`) it performed, in order.
-/

/-- One wire-level bus operation: a command written with no response
expected, or a query awaiting a one-line response. -/
inductive BusOp where
  | write (cmd : String)
  | query (cmd : String)
deriving DecidableEq

/-- The Python exceptions relevant to this program.  `visaIOError` models
`pyvisa.VisaIOError` (bus failure, timeout, failed open); `valueError`
models `ValueError` from `float()` / `int()`; `invalidSession` models
`pyvisa.errors.InvalidSession` raised by operating on a closed resource;
`nameError` models `NameError` from evaluating an unbound local.  All are
subclasses of `Exception` in Python. -/
inductive PyErr where
  | visaIOError
  | valueError
  | invalidSession
  | nameError
deriving DecidableEq

/-- The environment: whether `open_resource` succeeds, which writes the bus
accepts, and the device's response to each query (`none` = timeout). -/
structure Device where
  openOk : Bool
  acceptWrite : String → Bool
  respond : String → Option String

/-- Model of a pyvisa resource: the session handle (`none` once closed or
never opened), the response timeout in milliseconds, and the line
termination for reads. -/
structure Resource where
  session : Option Nat
  timeout : Nat
  readTermination : String
deriving DecidableEq

/-- Model of pyvisa `Resource.write`: on a closed resource the `session`
property raises `InvalidSession` before anything reaches the wire; on an
open resource the command is sent (so it appears in the trace) and a bus
failure surfaces as `VisaIOError`. -/
def Resource.write (r : Resource) (d : Device) (cmd : String) :
    Except PyErr Unit × List BusOp :=
  match r.session with
  | none => (.error .invalidSession, [])
  | some _ =>
      if d.acceptWrite cmd then (.ok (), [BusOp.write cmd])
      else (.error .visaIOError, [BusOp.write cmd])

/-- Model of pyvisa `Resource.query`: on a closed resource it raises
`InvalidSession` before sending; on an open resource the command is sent
and either one response line comes back or the read times out with
`VisaIOError`. -/
def Resource.query (r : Resource) (d : Device) (cmd : String) :
    Except PyErr String × List BusOp :=
  match r.session with
  | none => (.error .invalidSession, [])
  | some _ =>
      match d.respond cmd with
      | some resp => (.ok resp, [BusOp.query cmd])
      | none => (.error .visaIOError, [BusOp.query cmd])

/-- Model of pyvisa `Resource.close`: closing an open resource releases the
handle; closing an already-closed (or never-opened) resource raises
`InvalidSession`, because `close` reads the `session` property first. -/
def Resource.close (r : Resource) : Except PyErr Unit × Resource :=
  match r.session with
  | none => (.error .invalidSession, r)
  | some _ => (.ok (), ⟨none, r.timeout, r.readTermination⟩)

/-- The whitespace set of Python `str.strip()` (ASCII part). -/
def pyIsSpace (c : Char) : Bool :=
  c = ' ' || c = '\t' || c = '\n' || c = '\r' || c = '\x0b' || c = '\x0c'

/-- Model of Python `str.strip()`: drop leading and trailing whitespace. -/
def pyStrip (s : String) : String :=
  String.mk (((s.data.dropWhile pyIsSpace).reverse.dropWhile pyIsSpace).reverse)

/-- Numeric value of a decimal digit character. -/
def digitVal (c : Char) : Nat := c.toNat - 48

/-- Value of a string of decimal digits, most significant first. -/
def digitsToNat (l : List Char) : Nat :=
  l.foldl (fun a c => a * 10 + digitVal c) 0

/-- Consume an optional leading sign; return whether it was `-` and the
rest of the input. -/
def parseSign : List Char → Bool × List Char
  | '+' :: rest => (false, rest)
  | '-' :: rest => (true, rest)
  | l => (false, l)

/-- Parse an unsigned decimal mantissa: digits, optionally followed by a
point and more digits, with at least one digit overall.  Returns the
mantissa digits as a natural number, the count of fractional digits (the
value read is `mantissa / 10 ^ fracDigits`), and the unconsumed input. -/
def parseUnsigned (l : List Char) : Option (Nat × Nat × List Char) :=
  let ip := l.takeWhile Char.isDigit
  let rest := l.dropWhile Char.isDigit
  match rest with
  | '.' :: afterPoint =>
      let fp := afterPoint.takeWhile Char.isDigit
      let rest2 := afterPoint.dropWhile Char.isDigit
      if ip.isEmpty && fp.isEmpty then none
      else some (digitsToNat (ip ++ fp), fp.length, rest2)
  | _ =>
      if ip.isEmpty then none
      else some (digitsToNat ip, 0, rest)

/-- Parse an optional exponent part `('e'|'E') sign? digits`.  When no
exponent marker is present nothing is consumed and the exponent is 0; a
marker with no digits after it is a parse error. -/
def parseExp (l : List Char) : Option (Int × List Char) :=
  match l with
  | c :: rest =>
      if c = 'e' || c = 'E' then
        let sr := parseSign rest
        let ds := sr.2.takeWhile Char.isDigit
        let rest2 := sr.2.dropWhile Char.isDigit
        if ds.isEmpty then none
        else some ((if sr.1 then -(digitsToNat ds : Int) else (digitsToNat ds : Int)), rest2)
      else some (0, l)
  | [] => some (0, [])

/-- Model of Python `float(str)` on finite decimal literals: surrounding
whitespace is stripped, then `sign? mantissa exponent?` must consume the
whole input.  The value is kept as an exact rational, which agrees with
Python on every response the instrument produces.  Python's special forms
(`inf`, `nan`, digit underscores) are not decimal instrument responses and
are not modelled. -/
def pyFloat (s : String) : Option ℚ :=
  let l := (pyStrip s).data
  let sr := parseSign l
  match parseUnsigned sr.2 with
  | none => none
  | some (m, fd, l2) =>
      match parseExp l2 with
      | none => none
      | some (e, l3) =>
          if l3.isEmpty then
            let net : Int := e - (fd : Int)
            let n : Int := if sr.1 then -(m : Int) else (m : Int)
            some (if 0 ≤ net then mkRat (n * ((10 ^ net.toNat : Nat) : Int)) 1
                  else mkRat n (10 ^ (-net).toNat))
          else none

/-- Model of Python `int(str)`: surrounding whitespace stripped, then an
optional sign and one or more decimal digits consuming the whole input. -/
def pyInt (s : String) : Option Int :=
  let l := (pyStrip s).data
  let sr := parseSign l
  let ds := sr.2.takeWhile Char.isDigit
  let rest := sr.2.dropWhile Char.isDigit
  if ds.isEmpty || !rest.isEmpty then none
  else some (if sr.1 then -(digitsToNat ds : Int) else (digitsToNat ds : Int))

/-- A Python float argument as it reaches an f-string: its numeric value
together with the text `str()` renders for it.  Python's float-to-text
rendering itself is not re-implemented; the rendered text travels with the
value, and both variants feed it to their format strings unchanged. -/
structure PyFloatVal where
  val : ℚ
  text : String

/-- Wire command built by `set_voltage` in psu.py:
`f"VOLT {voltage}, (@{channel})"`. -/
def setVoltageCmd (ch : Int) (v : PyFloatVal) : String :=
  "VOLT " ++ v.text ++ ", (@" ++ toString ch ++ ")"

/-- Wire command built by `set_current` in psu.py:
`f"CURR {current}, (@{channel})"`. -/
def setCurrentCmd (ch : Int) (a : PyFloatVal) : String :=
  "CURR " ++ a.text ++ ", (@" ++ toString ch ++ ")"

/-- Wire query built by `read_voltage` in psu.py. -/
def readVoltageCmd (ch : Int) : String :=
  "MEASure:VOLTage? (@" ++ toString ch ++ ")"

/-- Wire query built by `read_current` in psu.py. -/
def readCurrentCmd (ch : Int) : String :=
  "MEASure:CURRent? (@" ++ toString ch ++ ")"

/-- Wire query built by `read_current_limit` in psu.py. -/
def readCurrentLimitCmd (ch : Int) : String :=
  "CURR? (@" ++ toString ch ++ ")"

/-- psu.py `set_voltage`: writes the set-voltage command for the channel. -/
def set_voltage (d : Device) (r : Resource) (ch : Int) (v : PyFloatVal) :
    Except PyErr Unit × List BusOp :=
  Resource.write r d (setVoltageCmd ch v)

/-- psu.py `set_current`: writes the set-current-limit command. -/
def set_current (d : Device) (r : Resource) (ch : Int) (a : PyFloatVal) :
    Except PyErr Unit × List BusOp :=
  Resource.write r d (setCurrentCmd ch a)

/-- psu.py `read_voltage`: queries the measured voltage and parses the
stripped response with `float`.  The resource is returned unchanged — the
source never mutates or closes it here. -/
def read_voltage (d : Device) (r : Resource) (ch : Int) :
    Except PyErr ℚ × List BusOp × Resource :=
  match Resource.query r d (readVoltageCmd ch) with
  | (.error e, t) => (.error e, t, r)
  | (.ok resp, t) =>
      match pyFloat (pyStrip resp) with
      | some q => (.ok q, t, r)
      | none => (.error .valueError, t, r)

/-- psu.py `read_current`: queries the measured current and parses the
stripped response with `float`. -/
def read_current (d : Device) (r : Resource) (ch : Int) :
    Except PyErr ℚ × List BusOp × Resource :=
  match Resource.query r d (readCurrentCmd ch) with
  | (.error e, t) => (.error e, t, r)
  | (.ok resp, t) =>
      match pyFloat (pyStrip resp) with
      | some q => (.ok q, t, r)
      | none => (.error .valueError, t, r)

/-- psu.py `read_current_limit`: queries the programmed current limit and
parses the stripped response with `float`. -/
def read_current_limit (d : Device) (r : Resource) (ch : Int) :
    Except PyErr ℚ × List BusOp × Resource :=
  match Resource.query r d (readCurrentLimitCmd ch) with
  | (.error e, t) => (.error e, t, r)
  | (.ok resp, t) =>
      match pyFloat (pyStrip resp) with
      | some q => (.ok q, t, r)
      | none => (.error .valueError, t, r)

/-- Result of psu.py `initialize_instrument`: the outcome (session and
decoded identity string, or the exception), the bus trace, and how many
underlying resources were opened during the call — the handle is created
by `open_resource` even when the later identification query fails. -/
structure OpenResult where
  result : Except PyErr (Resource × String)
  trace : List BusOp
  handlesOpened : Nat

/-- psu.py `initialize_instrument`: opens the resource, sets the timeout to
5000 ms and the read termination to a newline, queries `*IDN?` and prints
the stripped identity.  If `open_resource` fails the error propagates with
no handle created; if the identification query fails the error propagates
with the handle already created (and no longer reachable by the caller). -/
def open_instrument (d : Device) : OpenResult :=
  if d.openOk then
    let r : Resource := ⟨some 0, 5000, "\n"⟩
    match d.respond ("*IDN?") with
    | some idn => ⟨.ok (r, pyStrip idn), [BusOp.query ("*IDN?")], 1⟩
    | none => ⟨.error .visaIOError, [BusOp.query ("*IDN?")], 1⟩
  else ⟨.error .visaIOError, [], 0⟩

/-- psu.py `close_instrument`: calls `instrument.close()` and propagates
whatever it raises (then prints). -/
def close_instrument (r : Resource) : Except PyErr Unit × Resource :=
  Resource.close r

/-- How the CLI prompt loop's `while True` ends: a `KeyboardInterrupt`
(the normal exit) or some other uncaught `BaseException`.  Both are caught
by `main`, so this only records which handler fires. -/
inductive LoopExit where
  | keyboardInterrupt
  | otherException

/-- Observable outcome of one run of psu.py `main`: handles opened by
setup, underlying closes actually performed, times the `finally` block's
close attempt ran, the exception (if any) the `finally` block swallowed,
and whether any exception escaped `main`. -/
structure MainOutcome where
  handlesOpened : Nat
  underlyingCloses : Nat
  closeAttempts : Nat
  finallySwallowed : Option PyErr
  escaped : Bool
deriving DecidableEq

/-- psu.py `main`: runs setup and the prompt loop inside
`try/except/finally`; the `finally` block wraps `close_instrument(inst)`
in a bare `try/except: pass`.  When setup raised, the local `inst` was
never bound, so the close attempt raises `NameError` (swallowed) and the
underlying resource — if the identification query was what failed — is
never closed. -/
def cliMain (d : Device) (_le : LoopExit) : MainOutcome :=
  match (open_instrument d).result with
  | .error _ =>
      ⟨(open_instrument d).handlesOpened, 0, 1, some .nameError, false⟩
  | .ok (r, _) =>
      match close_instrument r with
      | (.ok _, _) => ⟨(open_instrument d).handlesOpened, 1, 1, none, false⟩
      | (.error e, _) => ⟨(open_instrument d).handlesOpened, 0, 1, some e, false⟩

/-- State of the CLI interaction loop after one iteration: back at the
prompt, or crashed because an exception escaped the iteration.  The
`crashed` state is never produced, because the loop body's three handlers
together catch every `Exception`. -/
inductive LoopState where
  | prompting
  | crashed
deriving DecidableEq

/-- Which message one iteration of the CLI loop printed: the applied
confirmation, the `except ValueError` message, the `except VisaIOError`
message, or the `except Exception` message. -/
inductive IterMsg where
  | applied
  | invalidInput
  | visaMsg
  | unexpectedMsg
deriving DecidableEq

/-- Result of one iteration of the CLI loop body. -/
structure IterResult where
  state : LoopState
  msg : IterMsg
  trace : List BusOp
deriving DecidableEq

/-- The three `except` clauses of `prompt_and_set_channel`: every modelled
exception is an `Exception`, so each is caught, a message is printed and
the loop goes back to prompting. -/
def iterMsgOf : PyErr → IterMsg
  | .valueError => .invalidInput
  | .visaIOError => .visaMsg
  | .invalidSession => .unexpectedMsg
  | .nameError => .unexpectedMsg

/-- One iteration of the `while True` body of psu.py
`prompt_and_set_channel`, given the three operator input lines.  All three
inputs are read and parsed before any instrument traffic; then the two set
commands, the voltage read-back and the current-limit read-back run in
order.  `render` models Python's float-to-text conversion used when a
parsed value is substituted back into an f-string. -/
def prompt_iteration (d : Device) (r : Resource) (render : ℚ → String)
    (s1 s2 s3 : String) : IterResult :=
  match pyInt s1 with
  | none => ⟨.prompting, .invalidInput, []⟩
  | some ch =>
      match pyFloat s2 with
      | none => ⟨.prompting, .invalidInput, []⟩
      | some v =>
          match pyFloat s3 with
          | none => ⟨.prompting, .invalidInput, []⟩
          | some c =>
              let sv := set_voltage d r ch ⟨v, render v⟩
              match sv.1 with
              | .error e => ⟨.prompting, iterMsgOf e, sv.2⟩
              | .ok _ =>
                  let sc := set_current d r ch ⟨c, render c⟩
                  match sc.1 with
                  | .error e => ⟨.prompting, iterMsgOf e, sv.2 ++ sc.2⟩
                  | .ok _ =>
                      let rv := read_voltage d r ch
                      match rv.1 with
                      | .error e => ⟨.prompting, iterMsgOf e, sv.2 ++ sc.2 ++ rv.2.1⟩
                      | .ok _ =>
                          let rl := read_current_limit d r ch
                          match rl.1 with
                          | .error e =>
                              ⟨.prompting, iterMsgOf e, sv.2 ++ sc.2 ++ rv.2.1 ++ rl.2.1⟩
                          | .ok _ =>
                              ⟨.prompting, .applied, sv.2 ++ sc.2 ++ rv.2.1 ++ rl.2.1⟩

namespace Gui

/-- Wire query built by `update_readings` in psu_gui.py for voltage. -/
def measVoltCmd (ch : Int) : String :=
  "MEAS:VOLT? (@" ++ toString ch ++ ")"

/-- Wire query built by `update_readings` in psu_gui.py for current. -/
def measCurrCmd (ch : Int) : String :=
  "MEAS:CURR? (@" ++ toString ch ++ ")"

/-- Wire query built by `update_readings` in psu_gui.py for the programmed
current limit. -/
def currLimitCmd (ch : Int) : String :=
  "CURR? (@" ++ toString ch ++ ")"

/-- Wire command built by `apply_settings` in psu_gui.py for voltage. -/
def setVoltCmd (ch : Int) (v : PyFloatVal) : String :=
  "VOLT " ++ v.text ++ ", (@" ++ toString ch ++ ")"

/-- Wire command built by `apply_settings` in psu_gui.py for the current
limit. -/
def setCurrCmd (ch : Int) (a : PyFloatVal) : String :=
  "CURR " ++ a.text ++ ", (@" ++ toString ch ++ ")"

/-- What one `update_readings` call leaves on the channel's display:
the three parsed readings, or the read-error text from its `except`. -/
inductive DisplayUpdate where
  | readings (v c limit : ℚ)
  | readError
deriving DecidableEq

/-- psu_gui.py `ChannelControl.update_readings`: three sequential queries —
measured voltage, measured current, programmed current limit — each parsed
with `float(... .strip())`, then the display text is set; any exception is
caught and shown as a read error on the display. -/
def update_readings (d : Device) (r : Resource) (ch : Int) :
    DisplayUpdate × List BusOp :=
  match Resource.query r d (measVoltCmd ch) with
  | (.error _, t1) => (.readError, t1)
  | (.ok s1, t1) =>
      match pyFloat (pyStrip s1) with
      | none => (.readError, t1)
      | some v =>
          match Resource.query r d (measCurrCmd ch) with
          | (.error _, t2) => (.readError, t1 ++ t2)
          | (.ok s2, t2) =>
              match pyFloat (pyStrip s2) with
              | none => (.readError, t1 ++ t2)
              | some c =>
                  match Resource.query r d (currLimitCmd ch) with
                  | (.error _, t3) => (.readError, t1 ++ t2 ++ t3)
                  | (.ok s3, t3) =>
                      match pyFloat (pyStrip s3) with
                      | none => (.readError, t1 ++ t2 ++ t3)
                      | some limit => (.readings v c limit, t1 ++ t2 ++ t3)

/-- Outcome of one `apply_settings` call: the display update its final
poll produced, or the critical error dialog from its `except`. -/
inductive ApplyOutcome where
  | applied (u : DisplayUpdate)
  | errorDialog
deriving DecidableEq

/-- psu_gui.py `ChannelControl.apply_settings`: writes the set-voltage and
set-current commands, then calls `update_readings` once; any exception
from the writes pops an error dialog.  `update_readings` has its own
handler, so its failures never reach this one. -/
def apply_settings (d : Device) (r : Resource) (ch : Int) (v c : PyFloatVal) :
    ApplyOutcome × List BusOp :=
  let w1 := Resource.write r d (setVoltCmd ch v)
  match w1.1 with
  | .error _ => (.errorDialog, w1.2)
  | .ok _ =>
      let w2 := Resource.write r d (setCurrCmd ch c)
      match w2.1 with
      | .error _ => (.errorDialog, w1.2 ++ w2.2)
      | .ok _ =>
          let u := update_readings d r ch
          (.applied u.1, w1.2 ++ w2.2 ++ u.2)

/-- psu_gui.py `PowerSupplyGUI.__init__`, connection part (lines 132-139):
opens the resource and sets timeout 5000 ms and newline termination.  No
identification query is issued.  On failure it shows a critical dialog and
calls `sys.exit(1)` — modelled as the exit code on the error side. -/
def guiOpen (d : Device) : Except Nat Resource × List BusOp :=
  if d.openOk then (.ok ⟨some 0, 5000, "\n"⟩, [])
  else (.error 1, [])

/-- psu_gui.py `PowerSupplyGUI.closeEvent`: tries `instrument.close()`,
swallows any exception with a bare `except: pass`, and accepts the event.
The returned Boolean is the accepted event; the result is always `ok`
because every exception is swallowed. -/
def closeEvent (r : Resource) : Except PyErr (Resource × Bool) :=
  match Resource.close r with
  | (.ok _, r2) => .ok (r2, true)
  | (.error _, r2) => .ok (r2, true)

/-- One event delivered by the Qt event loop: a channel's 1-second timer
tick, or a click of a channel's Set button. -/
inductive GuiEvent where
  | tick (ch : Int)
  | applyClick (ch : Int) (v c : PyFloatVal)

/-- The bus operations one event's handler performs, start to finish. -/
def handlerTrace (d : Device) (r : Resource) : GuiEvent → List BusOp
  | .tick ch => (update_readings d r ch).2
  | .applyClick ch v c => (apply_settings d r ch v c).2

/-- The Qt event loop is single-threaded: queued events are dispatched one
at a time and each handler runs to completion before the next starts, so
the bus trace of a run is the concatenation of whole handler traces. -/
def processEvents (d : Device) (r : Resource) : List GuiEvent → List BusOp
  | [] => []
  | e :: es => handlerTrace d r e ++ processEvents d r es

end Gui

/-- The SCPI short form of a command mnemonic: keep everything except the
lowercase tail of each keyword. -/
def scpiShort (s : String) : String :=
  String.mk (s.data.filter fun c => !c.isLower)

/-- The `finally` block of psu.py `main`, close part: `close_instrument`
wrapped in a bare `try/except: pass`, so it always returns normally. -/
def cliShutdownClose (r : Resource) : Except PyErr Resource :=
  match close_instrument r with
  | (.ok _, r2) => .ok r2
  | (.error _, r2) => .ok r2

/-- A fully healthy environment: the resource opens, every write is
accepted, and every query answers `"1.0"`. -/
def devHealthy : Device :=
  ⟨true, fun _ => true, fun _ => some ("1.0")⟩

/-- An environment whose resource opens but whose device never answers:
every query times out. -/
def devSilent : Device :=
  ⟨true, fun _ => true, fun _ => none⟩

/-- An open resource as configured by either variant's startup. -/
def resOpen : Resource := ⟨some 0, 5000, "\n"⟩

/-- A closed (or never-opened) resource. -/
def resClosed : Resource := ⟨none, 5000, "\n"⟩


/-- Helper: `processEvents` distributes over list concatenation — the bus
trace of two event batches is the two batches' traces in sequence. -/
theorem processEvents_append (d : Device) (r : Resource) (l1 l2 : List Gui.GuiEvent) :
    Gui.processEvents d r (l1 ++ l2) =
      Gui.processEvents d r l1 ++ Gui.processEvents d r l2 := by
  induction l1 with
  | nil => rfl
  | cons e es ih => simp [Gui.processEvents, ih]

/-- C9: for every channel, the command sent by `read_current_limit` is
distinct from the command sent by `read_current`, in both variants (long
spelling in the CLI, short spelling in the GUI), so the programmed current
limit query is never conflated with the measured current query. -/
theorem c9_limit_query_distinct (ch : Int) :
    readCurrentLimitCmd ch ≠ readCurrentCmd ch ∧
    Gui.currLimitCmd ch ≠ Gui.measCurrCmd ch := by
  constructor <;> intro h <;>
    · have hlen := congrArg String.length h
      simp only [readCurrentLimitCmd, readCurrentCmd, Gui.currLimitCmd, Gui.measCurrCmd,
        String.length_append] at hlen
      rw [show ("CURR? (@" : String).length = 8 from rfl] at hlen
      first
        | rw [show ("MEASure:CURRent? (@" : String).length = 19 from rfl] at hlen
        | rw [show ("MEAS:CURR? (@" : String).length = 13 from rfl] at hlen
      omega

/-- C10: the GUI's apply action builds byte-identical set commands to the
CLI's `set_voltage` / `set_current` for every channel and value, and the
two variants' measurement queries share the same channel-addressing suffix
and differ only in that the GUI uses the SCPI short form of the same
instruction header. -/
theorem c10_set_commands_identical (ch : Int) (v a : PyFloatVal) :
    setVoltageCmd ch v = Gui.setVoltCmd ch v
  ∧ setCurrentCmd ch a = Gui.setCurrCmd ch a
  ∧ readVoltageCmd ch = "MEASure:VOLTage?" ++ (" (@" ++ toString ch ++ ")")
  ∧ Gui.measVoltCmd ch = scpiShort ("MEASure:VOLTage?") ++ (" (@" ++ toString ch ++ ")")
  ∧ readCurrentCmd ch = "MEASure:CURRent?" ++ (" (@" ++ toString ch ++ ")")
  ∧ Gui.measCurrCmd ch = scpiShort ("MEASure:CURRent?") ++ (" (@" ++ toString ch ++ ")") := by
  refine ⟨rfl, rfl, ?_, ?_, ?_, ?_⟩
  · rw [readVoltageCmd, show ("MEASure:VOLTage? (@" : String) = "MEASure:VOLTage?" ++ " (@" from rfl]
    simp only [String.append_assoc]
  · rw [Gui.measVoltCmd, show scpiShort ("MEASure:VOLTage?") = "MEAS:VOLT?" from by decide,
      show ("MEAS:VOLT? (@" : String) = "MEAS:VOLT?" ++ " (@" from rfl]
    simp only [String.append_assoc]
  · rw [readCurrentCmd, show ("MEASure:CURRent? (@" : String) = "MEASure:CURRent?" ++ " (@" from rfl]
    simp only [String.append_assoc]
  · rw [Gui.measCurrCmd, show scpiShort ("MEASure:CURRent?") = "MEAS:CURR?" from by decide,
      show ("MEAS:CURR? (@" : String) = "MEAS:CURR?" ++ " (@" from rfl]
    simp only [String.append_assoc]

/-- C5 counterexample: calling the close operation on a never-opened or
already-closed session raises `InvalidSession` — `close_instrument`
delegates to the resource's `close` and propagates the exception, so the
operation as implemented is not idempotent. -/
theorem c5_counterexample :
    (close_instrument resClosed).1 = Except.error PyErr.invalidSession := rfl

/-- C5 amended: `close_instrument` itself is not idempotent — on a closed
or never-opened session the underlying close raises `InvalidSession` and
`close_instrument` propagates it.  What holds is that both shutdown call
sites wrap the close in a bare exception handler: the CLI `finally` block
and the GUI `closeEvent` never raise, on any session state, so closing
twice through those sites (error recovery then normal shutdown) is safe. -/
theorem c5_close_wrappers_idempotent (r : Resource) (n : Nat) (hopen : r.session = some n) :
    (∃ u, close_instrument r = (Except.ok u, ⟨none, r.timeout, r.readTermination⟩))
  ∧ (close_instrument ⟨none, r.timeout, r.readTermination⟩).1 =
      Except.error PyErr.invalidSession
  ∧ (∀ r2 : Resource, ∃ r3, cliShutdownClose r2 = Except.ok r3)
  ∧ (∀ r2 : Resource, ∃ r3, Gui.closeEvent r2 = Except.ok (r3, true)) := by
  refine ⟨⟨(), ?_⟩, rfl, ?_, ?_⟩
  · simp [close_instrument, Resource.close, hopen]
  · intro r2
    cases hs : r2.session <;>
      simp [cliShutdownClose, close_instrument, Resource.close, hs]
  · intro r2
    cases hs : r2.session <;>
      simp [Gui.closeEvent, Resource.close, hs]

/-- C5 witness: an open session closes cleanly, the second direct close
raises, and both shutdown wrappers absorb every outcome. -/
theorem c5_witness :
    (∃ u, close_instrument resOpen = (Except.ok u, ⟨none, resOpen.timeout, resOpen.readTermination⟩))
  ∧ (close_instrument ⟨none, resOpen.timeout, resOpen.readTermination⟩).1 =
      Except.error PyErr.invalidSession
  ∧ (∀ r2 : Resource, ∃ r3, cliShutdownClose r2 = Except.ok r3)
  ∧ (∀ r2 : Resource, ∃ r3, Gui.closeEvent r2 = Except.ok (r3, true)) :=
  c5_close_wrappers_idempotent resOpen 0 rfl

/-- C2 counterexample: the GUI variant's open performs no bus query at
all — in particular it never issues the identification query `*IDN?`,
contrary to the claim that both variants' open do. -/
theorem c2_counterexample :
    (Gui.guiOpen devHealthy).2 = [] ∧
    BusOp.query ("*IDN?") ∉ (Gui.guiOpen devHealthy).2 := by
  exact ⟨rfl, by decide⟩

/-- C2 amended: the CLI variant's open resolves and opens the resource,
sets the 5000 ms timeout and newline termination, issues `*IDN?` and
returns the session with the stripped identity string, and fails when the
open or the identification query fails.  The GUI variant's open sets the
same timeout and termination but issues no identification query, and on
failure it shows a dialog and exits with code 1 instead of raising. -/
theorem c2_open_behaviour (d : Device) (idn : String) :
    (d.openOk = true → d.respond ("*IDN?") = some idn →
      open_instrument d =
        ⟨Except.ok (⟨some 0, 5000, "\n"⟩, pyStrip idn), [BusOp.query ("*IDN?")], 1⟩)
  ∧ (d.openOk = false → open_instrument d = ⟨Except.error PyErr.visaIOError, [], 0⟩)
  ∧ (d.openOk = true → d.respond ("*IDN?") = none →
      open_instrument d = ⟨Except.error PyErr.visaIOError, [BusOp.query ("*IDN?")], 1⟩)
  ∧ (d.openOk = true → Gui.guiOpen d = (Except.ok ⟨some 0, 5000, "\n"⟩, []))
  ∧ (d.openOk = false → Gui.guiOpen d = (Except.error 1, [])) := by
  refine ⟨fun h1 h2 => ?_, fun h1 => ?_, fun h1 h2 => ?_, fun h1 => ?_, fun h1 => ?_⟩
  · simp [open_instrument, h1, h2]
  · simp [open_instrument, h1]
  · simp [open_instrument, h1, h2]
  · simp [Gui.guiOpen, h1]
  · simp [Gui.guiOpen, h1]

/-- C2 witness: a healthy environment opens through both variants. -/
theorem c2_witness :
    open_instrument devHealthy =
      ⟨Except.ok (⟨some 0, 5000, "\n"⟩, pyStrip ("1.0")), [BusOp.query ("*IDN?")], 1⟩
  ∧ Gui.guiOpen devHealthy = (Except.ok ⟨some 0, 5000, "\n"⟩, []) :=
  ⟨(c2_open_behaviour devHealthy "1.0").1 rfl rfl,
   (c2_open_behaviour devHealthy "1.0").2.2.2.1 rfl⟩

/-- C4 counterexample: when the open succeeds but the identification query
times out, setup partially fails after creating the underlying handle; the
shutdown close attempt raises `NameError` on the unbound local and the
opened session is closed zero times, not exactly once. -/
theorem c4_counterexample :
    (cliMain devSilent LoopExit.keyboardInterrupt).handlesOpened = 1 ∧
    (cliMain devSilent LoopExit.keyboardInterrupt).underlyingCloses = 0 ∧
    (cliMain devSilent LoopExit.keyboardInterrupt).finallySwallowed =
      some PyErr.nameError :=
  ⟨rfl, rfl, rfl⟩

/-- Helper: a successful `initialize_instrument` always returns the freshly
configured resource. -/
theorem open_instrument_ok (d : Device) (r : Resource) (idn : String)
    (h : (open_instrument d).result = Except.ok (r, idn)) :
    r = ⟨some 0, 5000, "\n"⟩ := by
  by_cases ho : d.openOk = true
  · rcases hr : d.respond ("*IDN?") with _ | s <;>
      simp [open_instrument, ho, hr] at h
    exact h.1.symm
  · simp [open_instrument, ho] at h

/-- C4 amended: the `finally` block's close attempt runs exactly once in
every execution and any exception it raises is swallowed, so no shutdown
failure ever escapes `main` or masks an earlier error; when setup fully
succeeded the underlying session close runs exactly once, on either loop
exit mode — but when setup fails after opening the resource (the
identification query times out), the close attempt hits an unbound local
and the underlying session is never closed. -/
theorem c4_shutdown_close (d : Device) (le : LoopExit) :
    (cliMain d le).closeAttempts = 1
  ∧ (cliMain d le).escaped = false
  ∧ (∀ r idn, (open_instrument d).result = Except.ok (r, idn) →
      (cliMain d le).underlyingCloses = 1)
  ∧ (d.openOk = true → d.respond ("*IDN?") = none →
      (cliMain d le).handlesOpened = 1 ∧ (cliMain d le).underlyingCloses = 0) := by
  refine ⟨?_, ?_, ?_, ?_⟩
  · unfold cliMain
    split
    · rfl
    · split <;> rfl
  · unfold cliMain
    split
    · rfl
    · split <;> rfl
  · intro r idn h
    have hr := open_instrument_ok d r idn h
    subst hr
    simp [cliMain, h, close_instrument, Resource.close]
  · intro h1 h2
    simp [cliMain, open_instrument, h1, h2]

/-- C4 witness: in a healthy run the close attempt happens once, nothing
escapes, and the underlying session close runs exactly once. -/
theorem c4_witness :
    (cliMain devHealthy LoopExit.keyboardInterrupt).closeAttempts = 1
  ∧ (cliMain devHealthy LoopExit.keyboardInterrupt).escaped = false
  ∧ (cliMain devHealthy LoopExit.keyboardInterrupt).underlyingCloses = 1 :=
  ⟨(c4_shutdown_close devHealthy LoopExit.keyboardInterrupt).1,
   (c4_shutdown_close devHealthy LoopExit.keyboardInterrupt).2.1,
   (c4_shutdown_close devHealthy LoopExit.keyboardInterrupt).2.2.1
     ⟨some 0, 5000, "\n"⟩ (pyStrip ("1.0")) rfl⟩

/-- C1: for every channel in {1,2,3,4} and voltage v ≥ 0, `set_voltage`
followed by a fresh `read_voltage` puts exactly two commands on the wire,
in write-then-query order: the write `VOLT <v>, (@<channel>)` then the
query `MEASure:VOLTage? (@<channel>)`, with the channel number substituted
verbatim and nothing else in between. -/
theorem c1_set_then_read_trace (d : Device) (r : Resource) (n : Nat) (ch : Int)
    (v : PyFloatVal) (_hch : ch = 1 ∨ ch = 2 ∨ ch = 3 ∨ ch = 4) (_hv : 0 ≤ v.val)
    (hopen : r.session = some n) (hw : d.acceptWrite (setVoltageCmd ch v) = true) :
    (set_voltage d r ch v).2 ++ (read_voltage d r ch).2.1 =
      [BusOp.write ("VOLT " ++ v.text ++ ", (@" ++ toString ch ++ ")"),
       BusOp.query ("MEASure:VOLTage? (@" ++ toString ch ++ ")")] := by
  have h1 : (set_voltage d r ch v).2 = [BusOp.write (setVoltageCmd ch v)] := by
    simp [set_voltage, Resource.write, hopen, hw]
  have h2 : (read_voltage d r ch).2.1 = [BusOp.query (readVoltageCmd ch)] := by
    cases hresp : d.respond (readVoltageCmd ch) with
    | none => simp [read_voltage, Resource.query, hopen, hresp]
    | some resp =>
        cases hpf : pyFloat (pyStrip resp) with
        | none => simp [read_voltage, Resource.query, hopen, hresp, hpf]
        | some q => simp [read_voltage, Resource.query, hopen, hresp, hpf]
  rw [h1, h2]
  rfl

/-- C1 witness: channel 1, value 5.0, on a healthy open session. -/
theorem c1_witness :
    (set_voltage devHealthy resOpen 1 ⟨5, "5.0"⟩).2 ++ (read_voltage devHealthy resOpen 1).2.1 =
      [BusOp.write ("VOLT " ++ "5.0" ++ ", (@" ++ toString (1 : Int) ++ ")"),
       BusOp.query ("MEASure:VOLTage? (@" ++ toString (1 : Int) ++ ")")] :=
  c1_set_then_read_trace devHealthy resOpen 0 1 ⟨5, "5.0"⟩ (Or.inl rfl) (by norm_num) rfl rfl

/-- C3: every read operation returns the trimmed response parsed as a
float when it is a numeric literal — `"3.000\n"` yields exactly 3 — and
raises `ValueError` (the spec's ParseError) when it is not, as for
`"abc"`; in both cases exactly one query went out and the session is
returned open and unchanged. -/
theorem c3_read_parse (d : Device) (r : Resource) (n : Nat) (ch : Int) (resp : String)
    (hopen : r.session = some n)
    (hv : d.respond (readVoltageCmd ch) = some resp)
    (hc : d.respond (readCurrentCmd ch) = some resp)
    (hl : d.respond (readCurrentLimitCmd ch) = some resp) :
    ((∀ q, pyFloat (pyStrip resp) = some q →
        read_voltage d r ch = (Except.ok q, [BusOp.query (readVoltageCmd ch)], r)
      ∧ read_current d r ch = (Except.ok q, [BusOp.query (readCurrentCmd ch)], r)
      ∧ read_current_limit d r ch = (Except.ok q, [BusOp.query (readCurrentLimitCmd ch)], r))
    ∧ (pyFloat (pyStrip resp) = none →
        read_voltage d r ch =
          (Except.error PyErr.valueError, [BusOp.query (readVoltageCmd ch)], r)
      ∧ read_current d r ch =
          (Except.error PyErr.valueError, [BusOp.query (readCurrentCmd ch)], r)
      ∧ read_current_limit d r ch =
          (Except.error PyErr.valueError, [BusOp.query (readCurrentLimitCmd ch)], r)))
    ∧ pyFloat (pyStrip ("3.000\n")) = some 3
    ∧ pyFloat (pyStrip ("abc")) = none := by
  refine ⟨⟨fun q hq => ?_, fun hq => ?_⟩, by decide, by decide⟩ <;>
    exact ⟨by simp [read_voltage, Resource.query, hopen, hv, hq],
           by simp [read_current, Resource.query, hopen, hc, hq],
           by simp [read_current_limit, Resource.query, hopen, hl, hq]⟩

/-- C3 witness: a numeric response parses to its value with the session
unchanged. -/
theorem c3_witness :
    read_voltage devHealthy resOpen 1 =
      (Except.ok 1, [BusOp.query (readVoltageCmd 1)], resOpen) :=
  ((c3_read_parse devHealthy resOpen 0 1 "1.0" rfl rfl rfl rfl).1.1 1 (by decide)).1

/-- C6: in one CLI loop iteration, any non-numeric operator input is
caught before a single bus operation happens and the loop is back at the
prompt; a bus-level failure during the set/read sequence is reported as
the VISA message and the loop is back at the prompt; and no modelled
per-operation exception ever escapes the iteration. -/
theorem c6_loop_recovers (d : Device) (r : Resource) (render : ℚ → String)
    (s1 s2 s3 : String) :
    ((pyInt s1 = none ∨ pyFloat s2 = none ∨ pyFloat s3 = none) →
        prompt_iteration d r render s1 s2 s3 =
          ⟨LoopState.prompting, IterMsg.invalidInput, []⟩)
  ∧ (prompt_iteration d r render s1 s2 s3).state = LoopState.prompting
  ∧ (∀ ch v c n, pyInt s1 = some ch → pyFloat s2 = some v → pyFloat s3 = some c →
      r.session = some n → d.acceptWrite (setVoltageCmd ch ⟨v, render v⟩) = false →
      prompt_iteration d r render s1 s2 s3 =
        ⟨LoopState.prompting, IterMsg.visaMsg,
         [BusOp.write (setVoltageCmd ch ⟨v, render v⟩)]⟩) := by
  refine ⟨?_, ?_, ?_⟩
  · rintro (h | h | h)
    · simp [prompt_iteration, h]
    · rcases h1 : pyInt s1 with _ | ch
      · simp [prompt_iteration, h1]
      · simp [prompt_iteration, h1, h]
    · rcases h1 : pyInt s1 with _ | ch
      · simp [prompt_iteration, h1]
      · rcases h2 : pyFloat s2 with _ | v
        · simp [prompt_iteration, h1, h2]
        · simp [prompt_iteration, h1, h2, h]
  · simp only [prompt_iteration]
    repeat' split
    all_goals rfl
  · intro ch v c n h1 h2 h3 hopen hw
    simp only [prompt_iteration, h1, h2, h3]
    have hsv : set_voltage d r ch ⟨v, render v⟩ =
        (Except.error PyErr.visaIOError, [BusOp.write (setVoltageCmd ch ⟨v, render v⟩)]) := by
      simp [set_voltage, Resource.write, hopen, hw]
    rw [hsv]
    rfl

/-- C6 witness: a non-numeric channel input reports invalid input with an
empty bus trace. -/
theorem c6_witness :
    prompt_iteration devHealthy resOpen (fun _ => "0.0") "abc" "1" "1" =
      ⟨LoopState.prompting, IterMsg.invalidInput, []⟩ :=
  (c6_loop_recovers devHealthy resOpen (fun _ => "0.0") "abc" "1" "1").1
    (Or.inl (by decide))

/-- C7: a GUI timer tick issues exactly three queries in the order
measured voltage, measured current, programmed current limit and updates
the display; a manual apply issues exactly the set-voltage write then the
set-current write, immediately followed by one on-demand poll cycle of
the same three queries. -/
theorem c7_tick_and_apply (d : Device) (r : Resource) (n : Nat) (ch : Int)
    (v c : PyFloatVal) (sv sc sl : String) (qv qc ql : ℚ)
    (hopen : r.session = some n)
    (hrv : d.respond (Gui.measVoltCmd ch) = some sv)
    (hpv : pyFloat (pyStrip sv) = some qv)
    (hrc : d.respond (Gui.measCurrCmd ch) = some sc)
    (hpc : pyFloat (pyStrip sc) = some qc)
    (hrl : d.respond (Gui.currLimitCmd ch) = some sl)
    (hpl : pyFloat (pyStrip sl) = some ql)
    (hw1 : d.acceptWrite (Gui.setVoltCmd ch v) = true)
    (hw2 : d.acceptWrite (Gui.setCurrCmd ch c) = true) :
    Gui.update_readings d r ch =
      (Gui.DisplayUpdate.readings qv qc ql,
       [BusOp.query (Gui.measVoltCmd ch), BusOp.query (Gui.measCurrCmd ch),
        BusOp.query (Gui.currLimitCmd ch)])
  ∧ Gui.apply_settings d r ch v c =
      (Gui.ApplyOutcome.applied (Gui.DisplayUpdate.readings qv qc ql),
       [BusOp.write (Gui.setVoltCmd ch v), BusOp.write (Gui.setCurrCmd ch c),
        BusOp.query (Gui.measVoltCmd ch), BusOp.query (Gui.measCurrCmd ch),
        BusOp.query (Gui.currLimitCmd ch)]) := by
  have hu : Gui.update_readings d r ch =
      (Gui.DisplayUpdate.readings qv qc ql,
       [BusOp.query (Gui.measVoltCmd ch), BusOp.query (Gui.measCurrCmd ch),
        BusOp.query (Gui.currLimitCmd ch)]) := by
    simp [Gui.update_readings, Resource.query, hopen, hrv, hpv, hrc, hpc, hrl, hpl]
  refine ⟨hu, ?_⟩
  simp [Gui.apply_settings, Resource.write, hopen, hw1, hw2, hu]

/-- C7 witness: channel 1 on a healthy device, applying 5.0 V / 1.0 A. -/
theorem c7_witness :
    Gui.update_readings devHealthy resOpen 1 =
      (Gui.DisplayUpdate.readings 1 1 1,
       [BusOp.query (Gui.measVoltCmd 1), BusOp.query (Gui.measCurrCmd 1),
        BusOp.query (Gui.currLimitCmd 1)])
  ∧ Gui.apply_settings devHealthy resOpen 1 ⟨5, "5.0"⟩ ⟨1, "1.0"⟩ =
      (Gui.ApplyOutcome.applied (Gui.DisplayUpdate.readings 1 1 1),
       [BusOp.write (Gui.setVoltCmd 1 ⟨5, "5.0"⟩), BusOp.write (Gui.setCurrCmd 1 ⟨1, "1.0"⟩),
        BusOp.query (Gui.measVoltCmd 1), BusOp.query (Gui.measCurrCmd 1),
        BusOp.query (Gui.currLimitCmd 1)]) :=
  c7_tick_and_apply devHealthy resOpen 0 1 ⟨5, "5.0"⟩ ⟨1, "1.0"⟩ "1.0" "1.0" "1.0" 1 1 1
    rfl rfl (by decide) rfl (by decide) rfl (by decide) rfl rfl

/-- C8: in the single-threaded event-scheduler model of the GUI, the bus
trace of any event sequence splits around any one event as the complete
traces of the earlier handlers, then that handler's whole block, then the
complete traces of the later handlers — handler blocks are contiguous, so
two channels polled back-to-back never interleave their three-query
sequences. -/
theorem c8_handlers_never_interleave (d : Device) (r : Resource)
    (events : List Gui.GuiEvent) (i : Nat) (h : i < events.length) :
    Gui.processEvents d r events =
      Gui.processEvents d r (events.take i)
        ++ Gui.handlerTrace d r (events.get ⟨i, h⟩)
        ++ Gui.processEvents d r (events.drop (i + 1)) := by
  conv_lhs => rw [← List.take_append_drop i events]
  rw [processEvents_append, List.drop_eq_getElem_cons h]
  simp [Gui.processEvents, List.append_assoc]

/-- C8 witness: two back-to-back ticks of channels 1 and 2 decompose into
the two whole poll blocks in order. -/
theorem c8_witness :
    Gui.processEvents devHealthy resOpen [Gui.GuiEvent.tick 1, Gui.GuiEvent.tick 2] =
      Gui.processEvents devHealthy resOpen ([Gui.GuiEvent.tick 1, Gui.GuiEvent.tick 2].take 1)
        ++ Gui.handlerTrace devHealthy resOpen
            ([Gui.GuiEvent.tick 1, Gui.GuiEvent.tick 2].get ⟨1, by decide⟩)
        ++ Gui.processEvents devHealthy resOpen
            ([Gui.GuiEvent.tick 1, Gui.GuiEvent.tick 2].drop (1 + 1)) :=
  c8_handlers_never_interleave devHealthy resOpen
    [Gui.GuiEvent.tick 1, Gui.GuiEvent.tick 2] 1 (by decide)
